import Mathlib

/-!
Verification of the background download task manager of the Freeytzone
repository (`src/utils/youtube_downloader_new.py` and `src/app.py`).

The Python code is shallowly embedded: task records (`download_info`
dictionaries) become a Lean structure, the registry (`self.downloads`)
becomes an association list, subprocess output processing becomes a pure
step function on records, and wall-clock time, fresh uuids, the output
directory contents and subprocess return codes become explicit parameters.
Numeric progress values (Python floats holding exact decimal fractions and
multiples of powers of 1024) are modelled by `Rat`.
-/

/-! ## Python-style string primitives (on `List Char`)

Python's `in`, `split`, `strip`, `startswith`, `os.path.basename`,
`os.path.splitext` and `pathlib.Path.suffix` are modelled on character
lists, with `String` wrappers.  `split` matches Python semantics for a
non-empty separator (leftmost, non-overlapping); the code never splits on
an empty separator.
-/

/-- Does `cs` start with `p`? (Python `str.startswith` on lists.) -/
def listStartsWith : List Char → List Char → Bool
  | _, [] => true
  | [], _ :: _ => false
  | c :: cs, p :: ps => c = p && listStartsWith cs ps

/-- Index of the first occurrence of `sub` in `s`, scanning from offset `i`.
Mirrors Python `str.find` for non-empty `sub`. -/
def findSubAux (sub : List Char) : Nat → List Char → Option Nat
  | i, [] => if listStartsWith [] sub then some i else none
  | i, c :: rest =>
    if listStartsWith (c :: rest) sub then some i else findSubAux sub (i + 1) rest

/-- Python `sub in s` (substring containment). -/
def containsSubL (s sub : List Char) : Bool := (findSubAux sub 0 s).isSome

/-- Python `s.split(sub)` for non-empty `sub`; the fuel argument only
establishes termination (each step consumes at least one character, so
`s.length + 1` fuel is always enough). -/
def splitOnAux (sub : List Char) : Nat → List Char → List (List Char)
  | 0, s => [s]
  | fuel + 1, s =>
    match findSubAux sub 0 s with
    | none => [s]
    | some i => s.take i :: splitOnAux sub fuel (s.drop (i + sub.length))

def splitOnL (s sub : List Char) : List (List Char) := splitOnAux sub (s.length + 1) s

/-- Characters removed by Python `str.strip()` (space, tab, LF, CR, VT, FF). -/
def isPySpace (c : Char) : Bool :=
  c = ' ' || c = '\t' || c = '\n' || c = '\r' || c.toNat = 11 || c.toNat = 12

def trimLChars (cs : List Char) : List Char :=
  ((cs.dropWhile isPySpace).reverse.dropWhile isPySpace).reverse

/-- Python `sub in s` on strings. -/
def containsSub (s sub : String) : Bool := containsSubL s.data sub.data

/-- Python `s.split(sub)` on strings (non-empty `sub`). -/
def splitOnS (s sub : String) : List String := (splitOnL s.data sub.data).map String.mk

/-- Python `s.strip()`. -/
def trimStr (s : String) : String := String.mk (trimLChars s.data)

/-- Python `s.startswith(p)`. -/
def startsWithStr (s p : String) : Bool := listStartsWith s.data p.data

/-- Python `s.endswith(p)`. -/
def endsWithStr (s p : String) : Bool := listStartsWith s.data.reverse p.data.reverse

/-- `os.path.basename` on POSIX paths: the part after the last `/`. -/
def basename (s : String) : String := (splitOnS s "/").getLastD ""

/-- Python `str.replace(old, new)` (all occurrences, non-empty `old`). -/
def replaceSub (s old new : String) : String := String.intercalate new (splitOnS s old)

/-- ASCII lowering, enough for the ASCII unit and status strings the code lowercases. -/
def toLowerStr (s : String) : String := String.mk (s.data.map Char.toLower)

/-- Index of the last `.` in `cs`, if any. -/
def lastDotIndex (cs : List Char) : Option Nat :=
  (cs.reverse.findIdx? (· = '.')).map (fun k => cs.length - 1 - k)

/-- The root part of `os.path.splitext(p)`: everything before the last `.` of the
final path component, unless that component consists only of leading dots. -/
def splitextRoot (p : String) : String :=
  let base := (splitOnL p.data ['/']).getLastD []
  let dir := p.data.take (p.data.length - base.length)
  match lastDotIndex base with
  | some i =>
    if (base.take i).any (fun c => c ≠ '.') then String.mk (dir ++ base.take i) else p
  | none => p

/-- `pathlib.Path(p).suffix.lower()`: the lowercased last extension of the final
component (empty when the component has no internal dot). -/
def suffixLower (p : String) : String :=
  let base := (splitOnL p.data ['/']).getLastD []
  match lastDotIndex base with
  | some i => if 0 < i then toLowerStr (String.mk (base.drop i)) else ""
  | none => ""

/-! ## Numeric helpers -/

/-- Value of a list of decimal digit characters. -/
def natOfDigits (cs : List Char) : Nat := cs.foldl (fun a c => 10 * a + (c.toNat - 48)) 0

/-- Python `float(s)` on the plain decimal strings this program feeds it
(optional sign, digits with an optional single dot).  Exponents, `inf` and
`nan` are not modelled: every `float` call in the code receives a
regex-captured decimal.  `none` models `float` raising `ValueError`. -/
def pyFloat (s : String) : Option Rat :=
  let cs := trimLChars s.data
  let sign : Rat := if cs.headD ' ' = '-' then -1 else 1
  let cs := if cs.headD ' ' = '-' ∨ cs.headD ' ' = '+' then cs.drop 1 else cs
  let d1 := cs.takeWhile Char.isDigit
  match cs.drop d1.length with
  | [] => if d1.isEmpty then none else some (sign * natOfDigits d1)
  | '.' :: r2 =>
    let d2 := r2.takeWhile Char.isDigit
    if r2.drop d2.length ≠ [] then none
    else if d1.isEmpty ∧ d2.isEmpty then none
    else some (sign * ((natOfDigits d1 : Rat) + (natOfDigits d2 : Rat) / (10 : Rat) ^ d2.length))
  | _ => none

/-- Python `int()` truncation toward zero on rationals. -/
def pyTrunc (x : Rat) : Int := if 0 ≤ x then ⌊x⌋ else -⌊-x⌋

/-- Two-digit zero padding, Python `f"{n:02d}"` for `n ≥ 0`. -/
def pad2 (n : Nat) : String := if n < 10 then "0" ++ toString n else toString n

/-- The `h:mm:ss` / `mm:ss` rendering of a computed ETA
(`youtube_downloader_new.py` lines 888-895). -/
def formatEtaSeconds (secs : Nat) : String :=
  let h := secs / 3600
  let m := secs % 3600 / 60
  let s := secs % 3600 % 60
  if h > 0 then toString h ++ ":" ++ pad2 m ++ ":" ++ pad2 s
  else pad2 m ++ ":" ++ pad2 s

/-! ## The one working progress regex

`re.search(r'(\d+(?:\.\d+)?)%', line)` (line 916 and line 1136) uses single
backslashes, so it really matches a decimal number followed by `%`.  For this
pattern greedy matching needs no backtracking: shrinking a maximal digit run
only ever exposes another digit, which neither `.` nor `%` accepts.  The
value returned is `float` of the captured group, which is exact on these
decimal strings. -/

/-- Try to match `(\d+(?:\.\d+)?)%` at the head of `cs`, returning the numeric
value of the captured group. -/
def pctMatchAt (cs : List Char) : Option Rat :=
  let d1 := cs.takeWhile Char.isDigit
  if d1.isEmpty then none
  else
    match cs.drop d1.length with
    | '%' :: _ => some (natOfDigits d1 : Rat)
    | '.' :: r2 =>
      let d2 := r2.takeWhile Char.isDigit
      if d2.isEmpty then none
      else
        match r2.drop d2.length with
        | '%' :: _ => some ((natOfDigits d1 : Rat) + (natOfDigits d2 : Rat) / (10 : Rat) ^ d2.length)
        | _ => none
    | _ => none

def findPctL : List Char → Option Rat
  | [] => none
  | c :: cs =>
    match pctMatchAt (c :: cs) with
    | some v => some v
    | none => findPctL cs

/-- Leftmost match of `(\d+(?:\.\d+)?)%` in `s`, as its numeric value. -/
def findPct (s : String) : Option Rat := findPctL s.data

/-! ## The four inert progress regexes

Lines 840, 851, 862/867 and 872 of `youtube_downloader_new.py` write their
patterns with doubled backslashes inside raw strings, e.g.
`re.search(r'ETA\\s+((?:\\d{2}:)?\\d{2}:\\d{2})', line)`.  The regex engine
therefore sees `\\` (a literal backslash) followed by plain letters: such a
pattern only matches lines that contain a literal `\` character, which
yt-dlp progress lines never do.  They are modelled exactly:

* the ETA pattern is `ETA` `\` `s`+ then `((\dd:)?\dd:\dd)` where `\dd`
  stands for the three characters backslash, `d`, `d` — its capture is
  stored into the record's `eta` verbatim, so the capture is modelled;
* the size / percent / speed patterns capture a group that always starts
  with a literal backslash; that capture is immediately passed to
  `float(...)`, which raises `ValueError` on it, landing in the
  surrounding `except` handler.  So for those three patterns only the
  boolean "matched" outcome is observable, and only Booleans are modelled.
-/

/-- One-or-more run of the character `c`; `none` if absent. -/
def dropRun (c : Char) (cs : List Char) : Option (List Char) :=
  let run := cs.takeWhile (· = c)
  if run.isEmpty then none else some (cs.drop run.length)

/-- Literal tail `\dd:\dd` of the inert ETA pattern; returns capture and rest. -/
def matchEtaCore : List Char → Option (List Char × List Char)
  | '\\' :: 'd' :: 'd' :: ':' :: '\\' :: 'd' :: 'd' :: rest =>
    some (['\\', 'd', 'd', ':', '\\', 'd', 'd'], rest)
  | _ => none

/-- The captured group `((?:\\d{2}:)?\\d{2}:\\d{2})`, greedy on the optional part. -/
def matchEtaGroup (cs : List Char) : Option (List Char × List Char) :=
  match cs with
  | '\\' :: 'd' :: 'd' :: ':' :: rest =>
    match matchEtaCore rest with
    | some (cap, r) => some (['\\', 'd', 'd', ':'] ++ cap, r)
    | none => matchEtaCore cs
  | _ => matchEtaCore cs

/-- Match the inert ETA pattern at the head of the list. -/
def matchEtaAt : List Char → Option String
  | 'E' :: 'T' :: 'A' :: '\\' :: rest =>
    match dropRun 's' rest with
    | some r2 => (matchEtaGroup r2).map (fun pr => String.mk pr.1)
    | none => none
  | _ => none

def mEtaScan : List Char → Option String
  | [] => none
  | c :: cs =>
    match matchEtaAt (c :: cs) with
    | some g => some g
    | none => mEtaScan cs

/-- `re.search(r'ETA\\s+((?:\\d{2}:)?\\d{2}:\\d{2})', line)` (line 840),
returning the captured group of the leftmost match. -/
def m_eta_direct (line : String) : Option String := mEtaScan line.data

/-- Possible remainders after matching the inert number token
`\\d+(?:\\.\\d+)?` (i.e. `\` `d`+ with an optional `\` ANY `\` `d`+),
greedy alternative first. -/
def numTokenRemainders (cs : List Char) : List (List Char) :=
  match cs with
  | '\\' :: rest =>
    match dropRun 'd' rest with
    | some r2 =>
      match r2 with
      | '\\' :: _ :: '\\' :: r3 =>
        match dropRun 'd' r3 with
        | some r4 => [r4, r2]
        | none => [r2]
      | _ => [r2]
    | none => []
  | _ => []

/-- The `[KMG]iB` unit of the size/speed patterns. -/
def unitRemainder : List Char → Option (List Char)
  | c :: 'i' :: 'B' :: rest => if c = 'K' ∨ c = 'M' ∨ c = 'G' then some rest else none
  | _ => none

def sizesMatchAt (cs : List Char) : Bool :=
  (numTokenRemainders cs).any fun r1 =>
    match unitRemainder r1 with
    | some (' ' :: 'o' :: 'f' :: ' ' :: r2) =>
      (numTokenRemainders r2).any fun r3 => (unitRemainder r3).isSome
    | _ => false

def scanB (p : List Char → Bool) : List Char → Bool
  | [] => p []
  | c :: cs => p (c :: cs) || scanB p cs

/-- Does `re.search(r'(\\d+(?:\\.\\d+)?)([KMG]iB) of (\\d+(?:\\.\\d+)?)([KMG]iB)', line)`
(line 851) match?  Its first capture always starts with a literal backslash,
so on a match `parse_size` → `float` raises. -/
def m_sizes_matches (line : String) : Bool := scanB sizesMatchAt line.data

def pctBrokenAt (cs : List Char) : Bool :=
  (numTokenRemainders cs).any fun r => r.headD ' ' = '%'

/-- Does `re.search(r'(\\d+(?:\\.\\d+)?)%', line)` (lines 862/867) match?
On a match its capture starts with a backslash, so `float` raises. -/
def m_pct_broken_matches (line : String) : Bool := scanB pctBrokenAt line.data

def speedBrokenAt : List Char → Bool
  | 'a' :: 't' :: '\\' :: rest =>
    (match dropRun 's' rest with
     | some r2 =>
       (numTokenRemainders r2).any fun r3 =>
         match unitRemainder r3 with
         | some ('/' :: 's' :: _) => true
         | _ => false
     | none => false)
  | _ => false

/-- Does `re.search(r'at\\s+(\\d+(?:\\.\\d+)?)([KMG]iB)/s', line)` (line 872)
match?  On a match its first capture starts with a backslash, so
`parse_size` → `float` raises. -/
def m_speed_matches (line : String) : Bool := scanB speedBrokenAt line.data

/-! ## `parse_size` (lines 168-179) -/

/-- `parse_size(value_str, unit)`: `float` the value, lowercase the unit and
scale by the binary prefix.  `none` models `float` raising. -/
def parse_size (value_str : String) (unit : String) : Option Rat :=
  (pyFloat value_str).map fun v =>
    let u := toLowerStr unit
    if u = "kib" then v * 1024
    else if u = "mib" then v * 1024 ^ 2
    else if u = "gib" then v * 1024 ^ 3
    else v

/-! ## Task records and the registry

A `download_info` dictionary becomes a structure.  Fields that the code
creates at `start_download` are plain; fields that accrete later are
`Option` (with `none` for "key absent").  The live subprocess handle is
`Option Unit`: only its presence is observable to the registry logic. -/

structure DownloadInfo where
  url : String := ""
  format_type : String := ""
  quality : String := ""
  status : String := "starting"
  progress : Rat := 0
  speed : String := "Calculating..."
  eta : String := "Calculating..."
  start_time : Rat := 0
  speed_bytes : Option Rat := none
  downloaded_bytes : Option Rat := none
  total_bytes : Option Rat := none
  last_progress_line : Option String := none
  processing_start_time : Option Rat := none
  processing_stage : Option String := none
  output_file : Option String := none
  filename : Option String := none
  mime_type : Option String := none
  expected_extension : Option String := none
  error : Option String := none
  process : Option Unit := none
deriving DecidableEq

/-- The registry `self.downloads`, keyed by task id. -/
abbrev Registry := List (String × DownloadInfo)

def lookupReg : Registry → String → Option DownloadInfo
  | [], _ => none
  | (k, v) :: rest, id => if k = id then some v else lookupReg rest id

/-- Update the record stored under `id` in place. -/
def updateReg (reg : Registry) (id : String) (f : DownloadInfo → DownloadInfo) : Registry :=
  reg.map fun p => if p.1 = id then (p.1, f p.2) else p

/-! ## URL validation (`_is_valid_youtube_url`, lines 365-384)

`urllib.parse.urlparse` and `parse_qs` are modelled for the fields the
validator reads: `netloc`, `path` and `query`.  Scheme splitting, `//`
netloc detection and the fragment/query splits follow CPython `urlsplit`;
`parse_qs` splits the query on `&`, drops pairs without `=` or with an
empty value (`keep_blank_values=False`), and percent-plus-decodes names
and values (multi-byte UTF-8 percent sequences are decoded bytewise).
The Python validator wraps everything in `try/except` returning `False`,
so the model is a total Boolean function. -/

def isSchemeChar (c : Char) : Bool := c.isAlphanum || c = '+' || c = '-' || c = '.'

/-- Strip a leading `scheme:` when the prefix before the first colon is a
valid scheme (non-empty, starts with a letter, scheme characters only). -/
def afterScheme (url : String) : String :=
  let cs := url.data
  let pre := cs.takeWhile (fun c => c ≠ ':')
  if pre.length = cs.length ∨ pre.length = 0 then url
  else if (pre.headD ' ').isAlpha ∧ pre.all isSchemeChar then
    String.mk (cs.drop (pre.length + 1))
  else url

structure UrlParts where
  netloc : String
  path : String
  query : String

/-- The `netloc`/`path`/`query` fields of `urllib.parse.urlparse`. -/
def urlparse (url : String) : UrlParts :=
  let rest := afterScheme url
  let (netloc, rest2) :=
    if startsWithStr rest "//" then
      let cs := rest.data.drop 2
      let nl := cs.takeWhile (fun c => c ≠ '/' ∧ c ≠ '?' ∧ c ≠ '#')
      (String.mk nl, String.mk (cs.drop nl.length))
    else ("", rest)
  let noFrag := (splitOnS rest2 "#").headD rest2
  let (path, query) :=
    match splitOnS noFrag "?" with
    | [p] => (p, "")
    | p :: qs => (p, String.intercalate "?" qs)
    | [] => (noFrag, "")
  { netloc := netloc, path := path, query := query }

def hexVal (c : Char) : Option Nat :=
  if '0' ≤ c ∧ c ≤ '9' then some (c.toNat - 48)
  else if 'a' ≤ c ∧ c ≤ 'f' then some (c.toNat - 87)
  else if 'A' ≤ c ∧ c ≤ 'F' then some (c.toNat - 55)
  else none

/-- `urllib.parse.unquote_plus`: `+` to space, `%XX` percent decoding,
invalid escapes left untouched. -/
def pctDecodeL : List Char → List Char
  | [] => []
  | '%' :: h1 :: h2 :: rest =>
    (match hexVal h1, hexVal h2 with
     | some a, some b => Char.ofNat (16 * a + b) :: pctDecodeL rest
     | _, _ => '%' :: pctDecodeL (h1 :: h2 :: rest))
  | c :: rest => (if c = '+' then ' ' else c) :: pctDecodeL rest
termination_by cs => cs.length
decreasing_by all_goals simp_arith

def unquotePlus (s : String) : String := String.mk (pctDecodeL s.data)

/-- The list `parse_qs(query)[key]` (empty when the key is absent). -/
def qsValues (query : String) (key : String) : List String :=
  (splitOnS query "&").filterMap fun part =>
    match splitOnS part "=" with
    | name :: v1 :: rest =>
      let value := String.intercalate "=" (v1 :: rest)
      if value ≠ "" then
        if unquotePlus name = key then some (unquotePlus value) else none
      else none
    | _ => none

/-- `_is_valid_youtube_url` (lines 365-384): allow-listed host and an
11-character video id in the query (`youtube.com`) or path (`youtu.be`).
The Python `try/except` boundary returning `False` makes this total. -/
def is_valid_youtube_url (url : String) : Bool :=
  let p := urlparse url
  if ¬ (p.netloc = "www.youtube.com" ∨ p.netloc = "youtube.com" ∨ p.netloc = "youtu.be") then
    false
  else if p.netloc = "www.youtube.com" ∨ p.netloc = "youtube.com" then
    match qsValues p.query "v" with
    | v :: _ => v.length == 11
    | [] => false
  else if p.netloc = "youtu.be" then
    decide (p.path.length > 1) && (p.path.data.drop 1).length == 11
  else false

/-! ## Registry operations -/

/-- The initial record inserted by `start_download` (lines 1086-1095). -/
def newDownloadRecord (url format_type quality : String) (now : Rat) : DownloadInfo :=
  { url := url, format_type := format_type, quality := quality, status := "starting",
    progress := 0, speed := "Calculating...", eta := "Calculating...", start_time := now }

/-- `start_download` (lines 1076-1108).  The generated uuid and the current
time are parameters; `Except.error` models the raised `ValueError`. -/
def start_download (reg : Registry) (url format_type quality newId : String) (now : Rat) :
    Except String (String × Registry) :=
  if is_valid_youtube_url url = false then Except.error "Invalid YouTube URL"
  else if (["video", "audio", "thumbnail"].contains format_type) = false then
    Except.error "Invalid format type. Must be 'video', 'audio', or 'thumbnail'"
  else Except.ok (newId, (newId, newDownloadRecord url format_type quality now) :: reg)

/-- Did the call raise `ValueError`? -/
def raisesValueError (r : Except String (String × Registry)) : Bool :=
  match r with
  | Except.error _ => true
  | Except.ok _ => false

/-- `get_download_file` (lines 1221-1235): `(None, None, None)` for an
unknown id and for a known id whose status is not `completed`; otherwise
the stored file fields. -/
def get_download_file (reg : Registry) (id : String) :
    Option String × Option String × Option String :=
  match lookupReg reg id with
  | none => (none, none, none)
  | some info =>
    if info.status ≠ "completed" then (none, none, none)
    else (info.output_file, info.filename, info.mime_type)

/-- The record transition performed by `cancel_download` on a live task
(line 1247); also how the runner loop observes cancellation. -/
def cancelRecord (info : DownloadInfo) : DownloadInfo :=
  if info.status = "completed" ∨ info.status = "failed" ∨ info.status = "canceled" then info
  else { info with status := "canceled" }

/-- `cancel_download` (lines 1237-1260).  Returns `False` and leaves the
registry untouched for an unknown id; returns `True` without change when
the task is already terminal; otherwise flips the status to `canceled`
(and terminates the subprocess, an external effect). -/
def cancel_download (reg : Registry) (id : String) : Bool × Registry :=
  match lookupReg reg id with
  | none => (false, reg)
  | some info =>
    if info.status = "completed" ∨ info.status = "failed" ∨ info.status = "canceled" then
      (true, reg)
    else (true, updateReg reg id (fun i => { i with status := "canceled" }))

/-! ## Persistence (`_save_downloads` lines 303-317, `_load_downloads` lines 292-301)

`_save_downloads` copies every record, deletes the `process` key and
`json.dump`s the result; `_load_downloads` is `json.load` of that file.
All remaining fields are JSON-representable (strings, numbers, booleans),
and `json.dump`/`json.load` round-trips them identically, so serialization
is modelled as the identity on process-stripped records. -/

def save_downloads (reg : Registry) : Registry :=
  reg.map fun p => (p.1, { p.2 with process := none })

def load_downloads (snapshot : Registry) : Registry := snapshot

/-! ## Processing one line of subprocess output (`_download_thread`, lines 790-943)

`processLine` is the body of the output-reading loop, minus the
cancellation check (kept in `runLoop`).  Where the Python code would raise
inside the `try` (lines 815-927) — which happens exactly when `float` is
applied to a capture of one of the inert backslash regexes, or when
`downloaded_bytes / total_bytes` divides `None` by a number (line 913) —
the model returns the record as the `except` handler (lines 928-933)
leaves it: the handler re-assigns `progress`, `speed` and `eta` to their
existing values, so only the writes that already happened survive. -/

/-- The `'[Merger]' / '[VideoConvertor]'` branch (lines 797-808): switch to
`processing`, cap progress at 90, stamp the processing start time. -/
def processMergerLine (now : Rat) (info : DownloadInfo) (line : String) : DownloadInfo :=
  { info with
    status := "processing",
    progress := if info.progress > 90 then 90 else info.progress,
    eta := "Processing...",
    processing_stage := some (trimStr line),
    processing_start_time :=
      match info.processing_start_time with
      | some t => some t
      | none => some now }

/-- Steps 916-926: the working percent regex overwrites `progress`, then the
ETA/speed values chosen for this line are committed. -/
def finishPctWrites (info : DownloadInfo) (line : String)
    (cle : Option String) (cls : String) (clsb : Option Rat) : DownloadInfo :=
  let info :=
    match findPct line with
    | some p => { info with progress := p }
    | none => info
  let info :=
    match cle with
    | some e => { info with eta := e }
    | none => info
  let info := if cls ≠ "N/A" then { info with speed := cls } else info
  match clsb with
  | some sb => { info with speed_bytes := some sb }
  | none => info

/-- The `'[download]' in line and '%' in line` branch (lines 810-933). -/
def processDownloadPctLine (info0 : DownloadInfo) (line : String) : DownloadInfo :=
  -- lines 812-813: the raw line is stored before the try block
  let info := { info0 with last_progress_line := some (trimStr line) }
  -- line 819: speed defaults to the previous value
  let cls0 := info.speed
  let clsb : Option Rat := info.speed_bytes
  -- lines 825-830: aggressive ETA extraction by splitting on "ETA"
  let cle0 : Option String :=
    if containsSub line "ETA" then
      let etaPart := trimStr ((splitOnS line "ETA").getLastD "")
      if etaPart ≠ "" ∧ etaPart ≠ "Unknown ETA" ∧ startsWithStr etaPart "Unknown" = false then
        some etaPart
      else none
    else none
  -- lines 833-837: aggressive speed extraction by splitting on "at" / "ETA"
  let cls :=
    if containsSub line "at" ∧ containsSub line "/s" then
      let speedPart := trimStr ((splitOnS ((splitOnS line "at").getLastD "") "ETA").headD "")
      if speedPart ≠ "" ∧ containsSub speedPart "/s" then speedPart else cls0
    else cls0
  -- lines 840-844: inert ETA regex, then the literal "ETA Unknown ETA" check
  let cle :=
    match m_eta_direct line with
    | some g => some g
    | none => if containsSub line "ETA Unknown ETA" then some "Unknown" else cle0
  -- lines 848-849
  let downloadedB := info0.downloaded_bytes
  let totalB := info0.total_bytes
  -- line 851: on a match, parse_size(float) raises at line 854 → except
  if m_sizes_matches line then info
  -- lines 866-869: on a match, float raises at line 869 → except
  else if m_pct_broken_matches line then info
  -- lines 872-875: on a match, parse_size(float) raises at line 875 → except
  else if m_speed_matches line then info
  else
    -- lines 882-899: compute an ETA when none was parsed
    let cle :=
      match cle with
      | some e => some e
      | none =>
        match clsb, downloadedB, totalB with
        | some sb, some db, some tb =>
          if sb > 0 ∧ db < tb then
            some (formatEtaSeconds (⌊(tb - db) / sb⌋).toNat)
          else some info.eta
        | _, _, _ => some info.eta
    -- lines 902-903: first ETA write (before the locked section)
    let info :=
      match cle with
      | some e => { info with eta := e }
      | none => info
    -- lines 909-913: locked section; dividing None raises → except
    match totalB with
    | some tb =>
      if tb > 0 then
        match downloadedB with
        | none => info  -- TypeError at line 913; the ETA write above persists
        | some db =>
          finishPctWrites { info with progress := db / tb * 100 } line cle cls clsb
      else finishPctWrites info line cle cls clsb
    | none => finishPctWrites info line cle cls clsb

/-- The `'Destination:'` branch (lines 935-943). -/
def processDestLine (info : DownloadInfo) (line : String) : DownloadInfo :=
  match splitOnS line "Destination:" with
  | _ :: second :: _ =>
    let destination := trimStr second
    { info with output_file := some destination, filename := some (basename destination) }
  | _ => info

/-- One loop iteration body (lines 797-943): the merger check is an
independent `if`; the download-percent check and the destination check
form an `if`/`elif`. -/
def processLine (now : Rat) (info : DownloadInfo) (line : String) : DownloadInfo :=
  let info :=
    if containsSub line "[Merger]" || containsSub line "[VideoConvertor]" then
      processMergerLine now info line
    else info
  if containsSub line "[download]" && containsSub line "%" then
    processDownloadPctLine info line
  else if containsSub line "Destination:" then processDestLine info line
  else info

/-- The output-reading loop (lines 791-943) with cancellation interleaved:
`some line` is a line read from the subprocess, `none` is a concurrent
`cancel_download` hitting the shared record between reads.  A loop
iteration that observes `canceled` terminates the subprocess and breaks
(lines 793-795). -/
def runLoop (now : Rat) : DownloadInfo → List (Option String) → DownloadInfo
  | info, [] => info
  | info, none :: evs => runLoop now (cancelRecord info) evs
  | info, some l :: evs =>
    if info.status = "canceled" then info
    else runLoop now (processLine now info l) evs

/-! ## After the subprocess exits (lines 946-1067) -/

/-- The pieces of the environment the post-exit code consults: the result
of `Path(output_path).glob('*')` (line 959), of `Path(output_path).glob('*.*')`
(line 994), `os.path.exists`, and whether `ffmpeg` is available and its
conversion / the `.png.png` rename succeed. -/
structure FinishEnv where
  globAll : List String := []
  globDot : List String := []
  fileExists : String → Bool := fun _ => false
  ffmpegAvail : Bool := true
  renameOk : Bool := true
  convertOk : Bool := true

/-- The thumbnail mime-type/rename/convert block (lines 1014-1055).
(Reached only when `format_type == 'thumbnail'` survives to the end of the
thread, which the early return at line 772 prevents in this code; modelled
for completeness.) -/
def thumbnailFinalize (info : DownloadInfo) (env : FinishEnv) : DownloadInfo :=
  let of0 := info.output_file.getD ""
  let ext := suffixLower of0
  let info :=
    if ext = ".jpg" ∨ ext = ".jpeg" then { info with mime_type := some "image/jpeg" }
    else if ext = ".png" then
      let i2 := { info with mime_type := some "image/png" }
      if containsSub of0 ".png.png" ∧ env.renameOk then
        let fixed := replaceSub of0 ".png.png" ".png"
        { i2 with output_file := some fixed, filename := some (basename fixed) }
      else i2
    else if ext = ".webp" then { info with mime_type := some "image/webp" }
    else { info with mime_type := some "application/octet-stream" }
  if ext ≠ ".png" ∧ env.ffmpegAvail ∧ env.convertOk then
    let origT := info.output_file.getD ""
    let b := splitextRoot origT
    let baseT := if endsWithStr b ".png" then String.mk (b.data.take (b.data.length - 4)) else b
    let png := baseT ++ ".png"
    { info with
      output_file := some png
      filename := some (basename png)
      mime_type := some "image/png" }
  else info

/-- The `return_code == 0 and status != 'canceled'` branch (lines 950-1061).
Note that after the `file_found` checks the code sets `status = 'completed'`
and `progress = 100` unconditionally (lines 1057-1061), overwriting the
`failed` status written at lines 1010-1012 when no file was located. -/
def finishSuccess (info0 : DownloadInfo) (format_type : String) (env : FinishEnv) : DownloadInfo :=
  -- lines 950-954
  let info :=
    { info0 with
      status := "processing"
      progress := 99
      eta := "Processing..."
      speed := "N/A" }
  -- lines 957-965: if no destination was parsed, take the first glob('*') entry
  let info :=
    match info.output_file with
    | none =>
      match env.globAll with
      | f :: _ => { info with output_file := some f, filename := some (basename f) }
      | [] => info
    | some _ => info
  -- lines 969-990: existence check, then alternate extensions
  let fr : DownloadInfo × Bool :=
    match info.output_file with
    | some of1 =>
      if env.fileExists of1 then (info, true)
      else
        let exts := if format_type = "thumbnail" then [".png"] else [".mp4", ".webm", ".mkv"]
        match exts.find? (fun e => env.fileExists (splitextRoot of1 ++ e)) with
        | some e =>
          let tp := splitextRoot of1 ++ e
          ({ info with output_file := some tp, filename := some (basename tp) }, true)
        | none => (info, false)
    | none => (info, false)
  -- lines 992-1007: fall back to glob('*.*') filtered by expected suffixes
  let fr2 : DownloadInfo × Bool :=
    if fr.2 then fr
    else
      let wanted := if format_type = "thumbnail" then [".png", ".jpg", ".jpeg", ".webp"]
                    else [".mp4", ".webm", ".mkv"]
      match env.globDot.filter (fun f => wanted.contains (suffixLower f)) with
      | f :: _ => ({ fr.1 with output_file := some f, filename := some (basename f) }, true)
      | [] => (fr.1, false)
  -- lines 1009-1055
  let info :=
    if fr2.2 = false then
      { fr2.1 with status := "failed", error := some "Download completed but file not found" }
    else if format_type = "thumbnail" then thumbnailFinalize fr2.1 env
    else fr2.1
  -- lines 1057-1061: unconditional
  { info with status := "completed", progress := 100, eta := "Done", speed := "Complete" }

/-- The code after `process.wait()` (lines 946-1067): the success branch
requires `return_code == 0` and a status other than `canceled`; every
other case — including a task whose status is `canceled` — takes the
`else` branch and writes `status = 'failed'` (lines 1063-1067). -/
def runnerFinish (info : DownloadInfo) (return_code : Int) (format_type : String)
    (env : FinishEnv) : DownloadInfo :=
  if return_code = 0 ∧ info.status ≠ "canceled" then finishSuccess info format_type env
  else
    { info with
      status := "failed"
      error := some ("Download process exited with code " ++ toString return_code) }

/-! ## Thread-start steps (lines 549-556, 702-703, 738-739, 787) -/

/-- Line 555: the thread marks the task `downloading` as soon as it runs,
for every format type. -/
def threadStart (info : DownloadInfo) : DownloadInfo := { info with status := "downloading" }

/-- Lines 702-703 (video command construction). -/
def setVideoCommand (info : DownloadInfo) : DownloadInfo :=
  { info with expected_extension := some "mp4", mime_type := some "video/mp4" }

/-- Line 787: the `Popen` handle is stored in the record. -/
def setProcessHandle (info : DownloadInfo) : DownloadInfo := { info with process := some () }

/-! ## The thumbnail branch (lines 741-772 with the handler at 1069-1074) -/

/-- What the thumbnail branch depends on: the `thumbnails` entry of the
`get_video_info` result (`none` models the key being absent — which is
what `get_video_info` in this file actually returns, so the lookup at
line 745 raises `KeyError('thumbnails')`), the video title, the HTTP
status of the streamed GET, and an I/O error raised by the request or the
file write. -/
structure ThumbEnv where
  thumbnails : Option (List String) := none
  title : String := ""
  httpStatus : Nat := 200
  ioError : Option String := none

/-- Line 759: strip the filename to alphanumerics plus `.`, `_`, `-`, space. -/
def sanitizeFilename (s : String) : String :=
  String.mk (s.data.filter fun c => c.isAlphanum || c = '.' || c = '_' || c = '-' || c = ' ')

/-- The thumbnail run, as the list of successive record states after the
thread starts: first the unconditional `downloading` write (line 555),
then the terminal write.  Exceptions raised anywhere in the branch are
caught at lines 1069-1074, which write `failed` and `str(e)`. -/
def thumbnailThread (info0 : DownloadInfo) (outputPath : String) (env : ThumbEnv) :
    List DownloadInfo :=
  let s1 := threadStart info0
  match env.thumbnails with
  | none => [s1, { s1 with status := "failed", error := some "'thumbnails'" }]
  | some [] =>
    [s1, { s1 with status := "failed", error := some "No thumbnails found for this video" }]
  | some (_ :: _) =>
    if env.httpStatus ≠ 200 then
      [s1, { s1 with
             status := "failed"
             error := some ("Failed to download thumbnail: HTTP " ++ toString env.httpStatus) }]
    else
      match env.ioError with
      | some msg => [s1, { s1 with status := "failed", error := some msg }]
      | none =>
        let filename := sanitizeFilename (env.title ++ "_thumbnail.jpg")
        [s1, { s1 with
               output_file := some (outputPath ++ "/" ++ filename)
               filename := some filename
               mime_type := some "image/jpeg"
               status := "completed"
               progress := 100 }]

/-! ## `get_progress` (lines 1110-1219) -/

structure ProgressResult where
  status : String
  progress : Rat
  speed : String
  eta : String
  format_type : String
  elapsed : Int
deriving DecidableEq

/-- Lines 1136-1143: re-parse the percent from the retained raw line; cap
at 90 unless the status is `processing`. -/
def gpProgressFromRaw (status : String) (prog : Rat) (raw : String) : Rat :=
  match findPct raw with
  | some p => if status ≠ "processing" ∧ p > 90 then 90 else min 90 p
  | none => prog

/-- Lines 1146-1149: re-extract the ETA from the retained raw line. -/
def gpEtaFromRaw (eta : String) (raw : String) : String :=
  if containsSub raw "ETA" then
    let ep := trimStr ((splitOnS raw "ETA").getLastD "")
    if ep ≠ "" ∧ startsWithStr ep "Unknown" = false then ep else eta
  else eta

/-- Lines 1152-1159: re-extract the speed from the retained raw line. -/
def gpSpeedFromRaw (speed : String) (raw : String) : String :=
  if containsSub raw "at" ∧ containsSub raw "/s" then
    let sp := trimStr ((splitOnS ((splitOnS raw "at").getLastD "") "ETA").headD "")
    if containsSub sp "/s" then sp else speed
  else speed

/-- Lines 1132-1161: when a non-empty raw progress line with the
`[download]`/`%` markers is retained, re-derive (progress, speed, eta)
from it; otherwise keep the stored values. -/
def gpRawTriple (info : DownloadInfo) : Rat × String × String :=
  let raw := info.last_progress_line.getD ""
  if raw ≠ "" ∧ containsSub raw "[download]" ∧ containsSub raw "%" then
    (gpProgressFromRaw info.status info.progress raw,
     gpSpeedFromRaw info.speed raw,
     gpEtaFromRaw info.eta raw)
  else (info.progress, info.speed, info.eta)

/-- Lines 1166-1167: force a visible progress of at least 0.1 while
`downloading`. -/
def gpFloor (status : String) (pr : Rat) : Rat :=
  if status = "downloading" ∧ pr < 1 / 10 then 1 / 10 else pr

/-- Lines 1171-1180: during `processing`, progress is 90 plus up to 9
points that accrue linearly over ten seconds in the phase. -/
def processingProgress (info : DownloadInfo) (now : Rat) : Rat :=
  90 + min 9 ((now - info.processing_start_time.getD info.start_time) / 10 * 9)

/-- Lines 1183-1190: the stage-dependent ETA text during `processing`. -/
def processingEta (stage : String) : String :=
  if containsSub stage "Merger" then "Merging streams..."
  else if containsSub stage "VideoConvertor" then "Preparing for download in your device..."
  else "Processing..."

/-- The read-time view of one record (lines 1122-1219; the status mapping at
1196-1204 is the identity). -/
def progressView (info : DownloadInfo) (now : Rat) : ProgressResult :=
  if info.status = "processing" then
    { status := info.status
      progress := processingProgress info now
      speed := "Processing..."
      eta := processingEta (info.processing_stage.getD "")
      format_type := info.format_type
      elapsed := pyTrunc (now - info.start_time) }
  else
    { status := info.status
      progress := gpFloor info.status (gpRawTriple info).1
      speed := (gpRawTriple info).2.1
      eta := (gpRawTriple info).2.2
      format_type := info.format_type
      elapsed := pyTrunc (now - info.start_time) }

/-- `get_progress` (lines 1110-1219): `none` models the `ValueError` raised
for an unknown id (line 1113). -/
def get_progress (reg : Registry) (id : String) (now : Rat) : Option ProgressResult :=
  (lookupReg reg id).map (fun info => progressView info now)

/-! ## Concrete runs used by the claim theorems -/

def c3url : String := "https://www.youtube.com/watch?v=ABCDEFGHIJK"

/-- A freshly started video task. -/
def rec0 : DownloadInfo := newDownloadRecord c3url "video" "best" 0

def c3reg : Registry := [("t1", rec0)]

/-- The progress line from the spec (§8). -/
def c5line : String := "[download]  42.0% of  50.62MiB at  499.80KiB/s ETA 01:43"

/-- A final yt-dlp progress line. -/
def c2line : String := "[download] 100% of 50.62MiB in 00:05"

/-- A merge-stage line carrying no percentage, rate or ETA marker. -/
def mergerLine : String := "[Merger] Merging streams into file.mkv"

def c2env : FinishEnv :=
  { globAll := ["/downloads/t2/video.mp4"]
    globDot := ["/downloads/t2/video.mp4"]
    fileExists := fun p => p == "/downloads/t2/video.mp4" }

/-- A completed video download that saw `c2line` as its last progress line. -/
def c2infoFinal : DownloadInfo :=
  runnerFinish (runLoop 0 (setProcessHandle (setVideoCommand (threadStart rec0))) [some c2line])
    0 "video" c2env

def c2reg : Registry := [("t2", c2infoFinal)]

/-- A run that processes one progress line and is then canceled. -/
def c1info : DownloadInfo :=
  runLoop 0 (setProcessHandle (setVideoCommand (threadStart rec0))) [some c5line, none]

def thumbEnvOk : ThumbEnv :=
  { thumbnails := some ["https://i.ytimg.com/vi/x/maxres.jpg"]
    title := "My Video"
    httpStatus := 200
    ioError := none }

def rec7 : DownloadInfo := newDownloadRecord c3url "thumbnail" "best" 0

/-- A downloading task with known sticky speed/ETA. -/
def rec6 : DownloadInfo :=
  { rec0 with speed := "1MiB/s", eta := "00:10", status := "downloading" }

/-- A task in the processing phase. -/
def rec2p : DownloadInfo :=
  { rec0 with status := "processing", processing_start_time := some 0 }

def reg2p : Registry := [("p1", rec2p)]

/-- A registry holding a record with a live process handle. -/
def r4 : Registry := [("a", setProcessHandle rec0)]

/-- An arbitrary task record as it looks while the output-reading loop of a
video/audio download runs: status `downloading` (set at line 555) and no
byte counters (`downloaded_bytes`/`total_bytes` are only ever written at
lines 856-857, inside the branch guarded by the inert size regex, so they
stay absent).  Every other field is arbitrary. -/
def downloadingRecord (url ft q : String) (prog : Rat) (sp eta0 : String) (stt : Rat)
    (sb : Option Rat) (lpl : Option String) (pst : Option Rat) (pstage : Option String)
    (of1 fn mt ee err : Option String) (proc : Option Unit) : DownloadInfo :=
  { url := url
    format_type := ft
    quality := q
    status := "downloading"
    progress := prog
    speed := sp
    eta := eta0
    start_time := stt
    speed_bytes := sb
    downloaded_bytes := none
    total_bytes := none
    last_progress_line := lpl
    processing_start_time := pst
    processing_stage := pstage
    output_file := of1
    filename := fn
    mime_type := mt
    expected_extension := ee
    error := err
    process := proc }

set_option maxRecDepth 100000

/-! # Claim theorems -/

/-- C1: the spec requires that once a task is `canceled`, the still-running
runner thread never overwrites the state with `failed`/`completed`.  The
code violates this: after `process.wait()` (line 946), a canceled task
fails the guard `return_code == 0 and status != 'canceled'` (line 949) and
falls into the `else` branch (lines 1063-1067), which unconditionally
writes `status = 'failed'` — for every return code.  This theorem
exhibits the overwrite. -/
theorem canceled_status_overwritten_with_failed (info : DownloadInfo) (rc : Int)
    (ft : String) (env : FinishEnv) (h : info.status = "canceled") :
    (runnerFinish info rc ft env).status = "failed" := by
  unfold runnerFinish
  rw [if_neg]
  rintro ⟨_, hne⟩
  exact hne h

/-- Witness for C1: a concrete run — start a video task, process one
progress line, cancel (the loop breaks at lines 793-795), then the
subprocess exits with the termination code -15 — ends `failed`, not
`canceled`. -/
theorem canceled_status_overwritten_with_failed_w :
    (runnerFinish c1info (-15) "video" {}).status = "failed" :=
  canceled_status_overwritten_with_failed c1info (-15) "video" {}
    (by with_unfolding_all decide)

/-- C10: `cancel_download` on an id that is not in the registry returns
`False` (line 1239-1240) without touching any record. -/
theorem cancel_download_unknown_id (reg : Registry) (id : String)
    (h : lookupReg reg id = none) : cancel_download reg id = (false, reg) := by
  unfold cancel_download
  rw [h]

/-- Witness for C10 at the empty registry. -/
theorem cancel_download_unknown_id_w : cancel_download [] "nope" = (false, []) :=
  cancel_download_unknown_id [] "nope" rfl

/-- C8: `start_download` raises `ValueError` exactly when the URL fails
validation or the format type is not one of `video`/`audio`/`thumbnail`
(lines 1078-1082).  The validator itself is a total Boolean function (its
Python body is wrapped in `try/except` returning `False`). -/
theorem start_download_invalid_input_iff (reg : Registry) (url ft q id : String) (now : Rat) :
    raisesValueError (start_download reg url ft q id now)
      = (!is_valid_youtube_url url || !(["video", "audio", "thumbnail"].contains ft)) := by
  unfold start_download
  cases h1 : is_valid_youtube_url url <;>
    cases h2 : ["video", "audio", "thumbnail"].contains ft <;>
      simp [h1, h2, raisesValueError]

/-- C9: `parse_size` multiplies by 1024 / 1024² / 1024³ for `KiB` / `MiB` /
`GiB`, matching the unit after lowercasing (lines 168-179). -/
theorem parse_size_units (s u : String) (v : Rat) (h : pyFloat s = some v) :
    (toLowerStr u = "kib" → parse_size s u = some (v * 1024)) ∧
    (toLowerStr u = "mib" → parse_size s u = some (v * 1024 ^ 2)) ∧
    (toLowerStr u = "gib" → parse_size s u = some (v * 1024 ^ 3)) := by
  unfold parse_size
  rw [h]
  refine ⟨fun hu => ?_, fun hu => ?_, fun hu => ?_⟩ <;> simp [hu]

/-- Witness for C9: `1.5 KiB` is 1536 bytes. -/
theorem parse_size_units_w : parse_size "1.5" "KiB" = some ((3 / 2 : Rat) * 1024) :=
  (parse_size_units "1.5" "KiB" (3 / 2) (by with_unfolding_all decide)).1 (by decide)

/-- Lookup through a value-map of the registry. -/
theorem lookupReg_map (f : DownloadInfo → DownloadInfo) (reg : Registry) (id : String) :
    lookupReg (reg.map fun p => (p.1, f p.2)) id = (lookupReg reg id).map f := by
  induction reg with
  | nil => rfl
  | cons hd tl ih =>
    cases hd with
    | mk k v =>
      by_cases h : k = id <;> simp [lookupReg, h, ih]

/-- C4: persisting the registry and reloading it reproduces every record
identically on every field except the `process` handle, which is deleted
by `_save_downloads` (lines 306-312); reloading (`_load_downloads`, lines
292-301) only installs the parsed snapshot and starts no thread, so every
task keeps exactly its persisted status — a non-terminal task never
becomes `downloading` again by reloading. -/
theorem save_load_roundtrip (reg : Registry) (id : String) :
    lookupReg (load_downloads (save_downloads reg)) id
      = (lookupReg reg id).map (fun i => { i with process := none }) ∧
    (lookupReg (load_downloads (save_downloads reg)) id).map DownloadInfo.status
      = (lookupReg reg id).map DownloadInfo.status ∧
    ∀ i, lookupReg (load_downloads (save_downloads reg)) id = some i → i.process = none := by
  have h : lookupReg (load_downloads (save_downloads reg)) id
      = (lookupReg reg id).map (fun i => { i with process := none }) :=
    lookupReg_map (fun i => { i with process := none }) reg id
  refine ⟨h, ?_, ?_⟩
  · rw [h]
    cases lookupReg reg id <;> rfl
  · intro i hi
    rw [h] at hi
    cases hl : lookupReg reg id with
    | none => rw [hl] at hi; exact absurd hi (by simp)
    | some v =>
      rw [hl] at hi
      have h3 : ({ v with process := none } : DownloadInfo) = i := Option.some.inj hi
      rw [← h3]

/-- Witness for C4: the record stored with a live process handle comes back
with every field intact except `process`, which is gone. -/
theorem save_load_roundtrip_w :
    lookupReg (load_downloads (save_downloads r4)) "a" = some rec0 ∧ rec0.process = none :=
  ⟨by rw [(save_load_roundtrip r4 "a").1]; with_unfolding_all decide,
   (save_load_roundtrip r4 "a").2.2 rec0
     (by rw [(save_load_roundtrip r4 "a").1]; with_unfolding_all decide)⟩

/-- Counterexample for C3: the claim says the "not ready" outcome for a
known, not-yet-completed task is distinguishable from the outcome for an
unknown id.  It is not: `get_download_file` returns the identical triple
`(None, None, None)` in both cases (lines 1223-1229).  The known task here
is produced by `start_download` itself. -/
theorem not_ready_equals_not_found :
    start_download [] c3url "video" "best" "t1" 0 = Except.ok ("t1", c3reg) ∧
    lookupReg c3reg "t1" = some rec0 ∧ rec0.status ≠ "completed" ∧
    lookupReg c3reg "zz" = none ∧
    get_download_file c3reg "t1" = (none, none, none) ∧
    get_download_file c3reg "t1" = get_download_file c3reg "zz" := by
  refine ⟨by with_unfolding_all rfl, ?_, ?_, ?_, ?_, ?_⟩ <;> with_unfolding_all decide

/-- C3 (amended): `get_download_file` returns a triple with any non-`None`
component only for an existing task in state `completed`; for a completed
task it returns exactly the stored file fields (which can themselves still
be `None` when no artifact was recorded); for a known task in any other
state, and equally for an unknown id, it returns `(None, None, None)` —
the two empty outcomes are identical at this interface. -/
theorem get_download_file_amended :
    (∀ (reg : Registry) (id : String),
        get_download_file reg id ≠ (none, none, none) →
        ∃ i, lookupReg reg id = some i ∧ i.status = "completed") ∧
    (∀ (reg : Registry) (id : String) (i : DownloadInfo),
        lookupReg reg id = some i → i.status = "completed" →
        get_download_file reg id = (i.output_file, i.filename, i.mime_type)) ∧
    (∀ (reg : Registry) (id : String) (i : DownloadInfo),
        lookupReg reg id = some i → i.status ≠ "completed" →
        get_download_file reg id = (none, none, none)) ∧
    (∀ (reg : Registry) (id : String),
        lookupReg reg id = none → get_download_file reg id = (none, none, none)) := by
  refine ⟨?_, ?_, ?_, ?_⟩
  · intro reg id hne
    obtain ⟨i, hl⟩ : ∃ i, lookupReg reg id = some i := by
      cases hl : lookupReg reg id with
      | none =>
        unfold get_download_file at hne
        rw [hl] at hne
        exact absurd rfl hne
      | some i => exact ⟨i, rfl⟩
    refine ⟨i, hl, ?_⟩
    by_contra hs
    unfold get_download_file at hne
    simp only [hl] at hne
    rw [if_pos hs] at hne
    exact hne rfl
  · intro reg id i hl hs
    unfold get_download_file
    simp only [hl]
    rw [if_neg (not_not_intro hs)]
  · intro reg id i hl hs
    unfold get_download_file
    simp only [hl]
    rw [if_pos hs]
  · intro reg id hl
    unfold get_download_file
    rw [hl]

/-- Witness for C3: the completed concrete run returns its stored triple;
an unknown id returns the empty triple. -/
theorem get_download_file_amended_w :
    get_download_file c2reg "t2"
      = (c2infoFinal.output_file, c2infoFinal.filename, c2infoFinal.mime_type) ∧
    get_download_file c2reg "zz" = (none, none, none) :=
  ⟨get_download_file_amended.2.1 c2reg "t2" c2infoFinal (by with_unfolding_all decide)
      (by with_unfolding_all decide),
   get_download_file_amended.2.2.2 c2reg "zz" (by with_unfolding_all decide)⟩

/-- Counterexample for C6: a merge-stage line carries no percentage, rate
or ETA marker, yet processing it overwrites the previously recorded `eta`
with `Processing...` (line 803). -/
theorem merger_line_changes_sticky_eta :
    containsSub mergerLine "%" = false ∧ containsSub mergerLine "ETA" = false ∧
    containsSub mergerLine "/s" = false ∧
    rec6.speed = "1MiB/s" ∧ rec6.eta = "00:10" ∧
    (processLine 0 rec6 mergerLine).eta = "Processing..." := by
  with_unfolding_all decide

/-- `processDestLine` never touches the transfer-rate or ETA fields. -/
theorem processDestLine_speed_eta (info : DownloadInfo) (line : String) :
    (processDestLine info line).speed = info.speed ∧ (processDestLine info line).eta = info.eta := by
  unfold processDestLine
  rcases splitOnS line "Destination:" with _ | ⟨a, _ | ⟨b, r⟩⟩ <;> exact ⟨rfl, rfl⟩

/-- C6 (amended): a line with no percentage, rate, ETA **or merge/convert
stage** marker leaves the previously recorded `speed` and `eta` unchanged
(a `[Merger]`/`[VideoConvertor]` line resets `eta` to `Processing...`, see
the counterexample); and processing `Destination: foo.mp4` only records the
output path `foo.mp4` and its basename, leaving `speed`/`eta` (here
`1MiB/s` / `00:10`) untouched. -/
theorem sticky_fields_amended :
    (∀ (now : Rat) (info : DownloadInfo) (line : String),
        containsSub line "[Merger]" = false → containsSub line "[VideoConvertor]" = false →
        (containsSub line "[download]" && containsSub line "%") = false →
        (processLine now info line).speed = info.speed ∧
        (processLine now info line).eta = info.eta) ∧
    (∀ (now : Rat) (info : DownloadInfo), info.speed = "1MiB/s" → info.eta = "00:10" →
        processLine now info "Destination: foo.mp4"
          = { info with output_file := some "foo.mp4", filename := some "foo.mp4" }) := by
  constructor
  · intro now info line h1 h2 h3
    unfold processLine
    simp only [h1, h2, h3, Bool.or_self, Bool.false_eq_true, if_false]
    split
    · exact processDestLine_speed_eta info line
    · exact ⟨rfl, rfl⟩
  · intro now info _ _
    with_unfolding_all rfl

/-- Witness for C6 at a concrete record with sticky `speed`/`eta`. -/
theorem sticky_fields_amended_w :
    processLine 0 rec6 "Destination: foo.mp4"
      = { rec6 with output_file := some "foo.mp4", filename := some "foo.mp4" } :=
  sticky_fields_amended.2 0 rec6 rfl rfl

/-- Counterexample for C7: a successful thumbnail run does pass through the
`downloading` state — line 555 marks every task `downloading` as soon as
the runner thread starts, before the thumbnail branch runs — so the
lifecycle is `starting → downloading → completed`, not the claimed direct
`starting → completed`. -/
theorem thumbnail_passes_through_downloading :
    (rec7 :: thumbnailThread rec7 "/downloads/t7" thumbEnvOk).map DownloadInfo.status
      = ["starting", "downloading", "completed"] := by
  with_unfolding_all decide

/-- C7 (amended): a thumbnail task is marked `downloading` when the runner
thread starts (like every task) but has no percentage phase and never
enters `processing`: its status trace is `starting, downloading, completed`
exactly when a thumbnail list is present, the HTTP GET returns 200 and the
write raises no I/O error, and `starting, downloading, failed` in every
other case (missing `thumbnails` key, empty thumbnail list, non-200
response, I/O error). -/
theorem thumbnail_lifecycle_amended (info : DownloadInfo) (path : String) (env : ThumbEnv)
    (h : info.status = "starting") :
    ((info :: thumbnailThread info path env).map DownloadInfo.status
        = ["starting", "downloading", "completed"] ∨
      (info :: thumbnailThread info path env).map DownloadInfo.status
        = ["starting", "downloading", "failed"]) ∧
    ((info :: thumbnailThread info path env).map DownloadInfo.status
        = ["starting", "downloading", "completed"] ↔
      (∃ u us, env.thumbnails = some (u :: us)) ∧ env.httpStatus = 200 ∧
        env.ioError = none) := by
  rcases env with ⟨thumbs, title, http, ioe⟩
  rcases thumbs with _ | (_ | ⟨u, us⟩) <;>
    [skip; skip;
     (by_cases hh : http = 200;
      · rcases ioe with _ | msg <;>
          simp [thumbnailThread, threadStart, h, hh]
      · simp [thumbnailThread, threadStart, h, hh])] <;>
    simp [thumbnailThread, threadStart, h]

/-- Witness for C7: the concrete successful thumbnail environment. -/
theorem thumbnail_lifecycle_amended_w :
    (rec7 :: thumbnailThread rec7 "/d7" thumbEnvOk).map DownloadInfo.status
      = ["starting", "downloading", "completed"] :=
  (thumbnail_lifecycle_amended rec7 "/d7" thumbEnvOk rfl).2.mpr ⟨⟨_, _, rfl⟩, rfl, rfl⟩

/-- C5: processing the line
`[download]  42.0% of  50.62MiB at  499.80KiB/s ETA 01:43` from an
arbitrary prior record in the downloading phase stores progress `42.0`
(the working percent regex at line 916; the byte-pair regex at line 851 is
inert, so no byte-derived value competes), speed `499.80KiB/s` and ETA
`01:43` (the split-based extractions at lines 825-837), and `get_progress`
then reports exactly these three values (lines 1132-1161). -/
theorem progress_line_parse_spec_example (url ft q : String) (prog : Rat) (sp eta0 : String)
    (stt : Rat) (sb : Option Rat) (lpl : Option String) (pst : Option Rat)
    (pstage : Option String) (of1 fn mt ee err : Option String) (proc : Option Unit)
    (now0 now : Rat) :
    (processLine now0
        (downloadingRecord url ft q prog sp eta0 stt sb lpl pst pstage of1 fn mt ee err proc)
        c5line).progress = 42 ∧
    (processLine now0
        (downloadingRecord url ft q prog sp eta0 stt sb lpl pst pstage of1 fn mt ee err proc)
        c5line).speed = "499.80KiB/s" ∧
    (processLine now0
        (downloadingRecord url ft q prog sp eta0 stt sb lpl pst pstage of1 fn mt ee err proc)
        c5line).eta = "01:43" ∧
    (progressView
        (processLine now0
          (downloadingRecord url ft q prog sp eta0 stt sb lpl pst pstage of1 fn mt ee err proc)
          c5line) now).progress = 42 ∧
    (progressView
        (processLine now0
          (downloadingRecord url ft q prog sp eta0 stt sb lpl pst pstage of1 fn mt ee err proc)
          c5line) now).speed = "499.80KiB/s" ∧
    (progressView
        (processLine now0
          (downloadingRecord url ft q prog sp eta0 stt sb lpl pst pstage of1 fn mt ee err proc)
          c5line) now).eta = "01:43" := by
  rcases sb with _ | sbv <;>
    exact ⟨by with_unfolding_all rfl, by with_unfolding_all rfl, by with_unfolding_all rfl,
      by with_unfolding_all rfl, by with_unfolding_all rfl, by with_unfolding_all rfl⟩

/-- Counterexample for C2: a successfully completed video download (built
here through `start_download`-shaped record, the output loop and the
post-exit code) stores `progress = 100`, yet `get_progress` reports `90`:
the re-parse of the retained progress line (lines 1136-1143) re-caps at 90
whenever the status is not `processing` — including `completed`. -/
theorem completed_task_reports_progress_90 :
    c2infoFinal.status = "completed" ∧ c2infoFinal.progress = 100 ∧
    get_progress c2reg "t2" 5 = some (progressView c2infoFinal 5) ∧
    (progressView c2infoFinal 5).progress = 90 := by
  refine ⟨?_, ?_, rfl, ?_⟩ <;> with_unfolding_all decide

/-- The re-cap of the raw-line percentage (lines 1139-1143) equals
`min 90 p` for every status other than `processing`. -/
theorem gpProgressFromRaw_cap (st : String) (pr : Rat) (raw : String) (p : Rat)
    (hst : st ≠ "processing") (hp : findPct raw = some p) :
    gpProgressFromRaw st pr raw = min 90 p := by
  unfold gpProgressFromRaw
  rw [hp]
  show (if st ≠ "processing" ∧ p > 90 then (90 : Rat) else min 90 p) = min 90 p
  by_cases hp90 : (90 : Rat) < p
  · rw [if_pos ⟨hst, hp90⟩]
    exact (min_eq_left hp90.le).symm
  · rw [if_neg (fun hc => hp90 hc.2)]

/-- The raw-line triple under the marker hypotheses. -/
theorem gpRawTriple_of_markers (info : DownloadInfo) (raw : String)
    (hlpl : info.last_progress_line = some raw) (hne : raw ≠ "")
    (h1 : containsSub raw "[download]" = true) (h2 : containsSub raw "%" = true) :
    gpRawTriple info =
      (gpProgressFromRaw info.status info.progress raw,
       gpSpeedFromRaw info.speed raw,
       gpEtaFromRaw info.eta raw) := by
  unfold gpRawTriple
  rw [hlpl]
  show (if raw ≠ "" ∧ containsSub raw "[download]" ∧ containsSub raw "%" then
      (gpProgressFromRaw info.status info.progress raw,
       gpSpeedFromRaw info.speed raw,
       gpEtaFromRaw info.eta raw)
    else (info.progress, info.speed, info.eta)) = _
  rw [if_pos ⟨hne, h1, h2⟩]

/-- The reported progress of a non-`processing` record whose retained raw
line re-parses to `p` is `max (1/10) (min 90 p)` while `downloading`, and
`min 90 p` in any other non-`processing` status. -/
theorem progressView_raw_progress (info : DownloadInfo) (now : Rat) (raw : String) (p : Rat)
    (hst : info.status ≠ "processing") (hlpl : info.last_progress_line = some raw)
    (hne : raw ≠ "") (h1 : containsSub raw "[download]" = true)
    (h2 : containsSub raw "%" = true) (hp : findPct raw = some p) :
    (progressView info now).progress =
      (if info.status = "downloading" then max (1 / 10) (min 90 p) else min 90 p) := by
  unfold progressView
  rw [if_neg hst]
  show gpFloor info.status (gpRawTriple info).1 = _
  rw [gpRawTriple_of_markers info raw hlpl hne h1 h2]
  show gpFloor info.status (gpProgressFromRaw info.status info.progress raw) = _
  rw [gpProgressFromRaw_cap info.status info.progress raw p hst hp]
  unfold gpFloor
  by_cases hd : info.status = "downloading"
  · rw [if_pos hd]
    by_cases hlt : min 90 p < 1 / 10
    · rw [if_pos ⟨hd, hlt⟩]
      exact (max_eq_left hlt.le).symm
    · rw [if_neg (fun hc => hlt hc.2)]
      exact (max_eq_right (not_lt.mp hlt)).symm
  · rw [if_neg hd, if_neg (fun hc => hd hc.1)]

/-- During `processing`, the reported progress is the elapsed-time ramp. -/
theorem progressView_processing (info : DownloadInfo) (now : Rat)
    (hst : info.status = "processing") :
    (progressView info now).progress = processingProgress info now := by
  unfold progressView
  rw [if_pos hst]

/-- C2 (amended).  `get_progress` reads every record through `progressView`.
While `downloading`, once a `[download]` percentage line has been retained
(which is the case from the first progress line on), the reported value is
exactly `max (1/10) (min 90 p)` where `p` is that line's percentage — so it
is capped at 90 and lies in `[0.1, 90]`, and it is non-decreasing precisely
when the retained percentages are (the map `p ↦ max (1/10) (min 90 p)` is
monotone), which the code itself does not enforce.  While `processing`, the
reported value lies in `[90, 99]` and is non-decreasing in time.  When
`completed`, the reported value is the stored 100 only if no raw progress
line is retained (the thumbnail path); with a retained line it is re-capped,
and a final line of more than 90 percent is reported as 90, not 100. -/
theorem get_progress_amended :
    (∀ (reg : Registry) (id : String) (now : Rat),
        get_progress reg id now = (lookupReg reg id).map (fun i => progressView i now)) ∧
    (∀ (info : DownloadInfo) (now : Rat) (raw : String) (p : Rat),
        info.status = "downloading" → info.last_progress_line = some raw → raw ≠ "" →
        containsSub raw "[download]" = true → containsSub raw "%" = true →
        findPct raw = some p →
        (progressView info now).progress = max (1 / 10) (min 90 p) ∧
        1 / 10 ≤ (progressView info now).progress ∧ (progressView info now).progress ≤ 90) ∧
    (∀ (info : DownloadInfo) (now1 now2 : Rat),
        info.status = "processing" →
        info.processing_start_time.getD info.start_time ≤ now1 → now1 ≤ now2 →
        90 ≤ (progressView info now1).progress ∧ (progressView info now1).progress ≤ 99 ∧
        (progressView info now1).progress ≤ (progressView info now2).progress) ∧
    (∀ (info : DownloadInfo) (now : Rat),
        info.status = "completed" → info.last_progress_line = none →
        (progressView info now).progress = info.progress) ∧
    (∀ (info : DownloadInfo) (now : Rat) (raw : String) (p : Rat),
        info.status = "completed" → info.last_progress_line = some raw → raw ≠ "" →
        containsSub raw "[download]" = true → containsSub raw "%" = true →
        findPct raw = some p → 90 < p →
        (progressView info now).progress = 90) := by
  refine ⟨fun _ _ _ => rfl, ?_, ?_, ?_, ?_⟩
  · intro info now raw p hstd hlpl hne h1 h2 hp
    have hst : info.status ≠ "processing" := by rw [hstd]; decide
    have h := progressView_raw_progress info now raw p hst hlpl hne h1 h2 hp
    rw [if_pos hstd] at h
    refine ⟨h, ?_, ?_⟩
    · rw [h]
      exact le_max_left _ _
    · rw [h]
      exact max_le (by norm_num) (le_trans (min_le_left _ _) (by norm_num))
  · intro info now1 now2 hst hn1 hn12
    rw [progressView_processing info now1 hst, progressView_processing info now2 hst]
    unfold processingProgress
    have hx1 : (0 : Rat) ≤ (now1 - info.processing_start_time.getD info.start_time) / 10 * 9 := by
      have := sub_nonneg.mpr hn1
      positivity
    refine ⟨?_, ?_, ?_⟩
    · have : (0 : Rat) ≤ min 9 ((now1 - info.processing_start_time.getD info.start_time) / 10 * 9) :=
        le_min (by norm_num) hx1
      linarith
    · have := min_le_left (9 : Rat)
        ((now1 - info.processing_start_time.getD info.start_time) / 10 * 9)
      linarith
    · have hd : (now1 - info.processing_start_time.getD info.start_time) / 10 * 9
          ≤ (now2 - info.processing_start_time.getD info.start_time) / 10 * 9 := by
        have h1 : now1 - info.processing_start_time.getD info.start_time
            ≤ now2 - info.processing_start_time.getD info.start_time := by linarith
        have h2 : (now1 - info.processing_start_time.getD info.start_time) / 10
            ≤ (now2 - info.processing_start_time.getD info.start_time) / 10 := by linarith
        nlinarith
      exact add_le_add_left (min_le_min le_rfl hd) 90
  · intro info now hst hlpl
    unfold progressView
    rw [if_neg (show info.status ≠ "processing" by rw [hst]; decide)]
    show gpFloor info.status (gpRawTriple info).1 = info.progress
    have ht : gpRawTriple info = (info.progress, info.speed, info.eta) := by
      unfold gpRawTriple
      rw [hlpl]
      show (if ("" : String) ≠ "" ∧ containsSub "" "[download]" ∧ containsSub "" "%" then
          (gpProgressFromRaw info.status info.progress "",
           gpSpeedFromRaw info.speed "", gpEtaFromRaw info.eta "")
        else (info.progress, info.speed, info.eta)) = _
      rw [if_neg (fun hc => hc.1 rfl)]
    rw [ht]
    show gpFloor info.status info.progress = info.progress
    unfold gpFloor
    rw [if_neg (fun hc => absurd (hst ▸ hc.1) (by decide))]
  · intro info now raw p hst hlpl hne h1 h2 hp hp90
    have hst2 : info.status ≠ "processing" := by rw [hst]; decide
    have h := progressView_raw_progress info now raw p hst2 hlpl hne h1 h2 hp
    rw [if_neg (show info.status ≠ "downloading" by rw [hst]; decide), min_eq_left hp90.le] at h
    exact h

/-- Witness for C2 at concrete inputs: a processing record reports between
90 and 99 and is non-decreasing in time; the completed concrete run with a
retained 100-percent line reports 90. -/
theorem get_progress_amended_w :
    (90 ≤ (progressView rec2p 5).progress ∧ (progressView rec2p 5).progress ≤ 99 ∧
      (progressView rec2p 5).progress ≤ (progressView rec2p 7).progress) ∧
    (progressView c2infoFinal 5).progress = 90 :=
  ⟨get_progress_amended.2.2.1 rec2p 5 7 rfl (by with_unfolding_all decide)
      (by with_unfolding_all decide),
   get_progress_amended.2.2.2.2 c2infoFinal 5 c2line 100 (by with_unfolding_all decide)
      (by with_unfolding_all decide) (by with_unfolding_all decide)
      (by with_unfolding_all decide) (by with_unfolding_all decide)
      (by with_unfolding_all decide) (by with_unfolding_all decide)⟩
